import Mathlib

/-!
Orocos Ruby binding (`ext/rorocos.cc`): proxy layer over the CORBA transport.

A shallow embedding of the C++ extension `ext/rorocos.cc`.

* Remote references (`ControlTask_var`, `DataFlowInterface_var`, ...) are plain
  handles; the remote side is a `Transport`, a record with one field per CORBA
  operation the extension calls.  Every remote operation may throw a C++
  exception, so every field returns `Except CxxException _`.  A `Transport` is a
  snapshot: the same query gives the same answer during one call of the extension.
* Ruby values are the constructors of `Value`.  An object is represented by its
  class, its wrapped C++ struct and its instance variables; Ruby object identity
  is not represented.
* A `String` is a Ruby string and may contain NUL characters.  The extension
  hands `StringValuePtr(s)` to the transport and to the `%s` of `rb_raise`; both
  read it as a C string, which ends at the first NUL: `cstr s`.  A string
  argument of a `Transport` field is the Ruby string whose pointer is passed.
  The instance variable `@name` keeps the whole Ruby string (`rb_str_dup`).
* A function of the extension ends in one of three ways: it returns a `Value`,
  it calls `rb_raise` (`Failure.raised`), or a C++ exception leaves it uncaught
  (`Failure.thrown`).
-/

namespace Orocos

/-! ## Remote handles and the transport -/

deriving instance DecidableEq for Except

/-- C++ exceptions of the CORBA layer.  `NoSuchPortException` is the only one the
extension names; `other` stands for every other exception (CORBA system
exceptions such as `COMM_FAILURE`, `MARSHAL`, ...). -/
inductive CxxException where
  | NoSuchPortException
  | other (what : String)
  deriving DecidableEq, Repr

/-- Models `RTT::Corba::ControlTask_var`. -/
structure ControlTask where
  ref : Nat
  deriving DecidableEq, Repr

/-- Models `RTT::Corba::DataFlowInterface_var`. -/
structure DataFlowInterface where
  ref : Nat
  deriving DecidableEq, Repr

/-- Models `RTT::Corba::AttributeInterface_var`. -/
structure AttributeInterface where
  ref : Nat
  deriving DecidableEq, Repr

/-- Models `RTT::Corba::MethodInterface_var`. -/
structure MethodInterface where
  ref : Nat
  deriving DecidableEq, Repr

/-- Models `RTT::Corba::CommandInterface_var`. -/
structure CommandInterface where
  ref : Nat
  deriving DecidableEq, Repr

/-- A non-nil `RTT::Corba::Expression_var`; a nil reference is `none` in
`Option Expression`. -/
structure Expression where
  ref : Nat
  deriving DecidableEq, Repr

/-- Modelled from the spec: `RTT::Corba::PortType` is declared in `DataFlowC.h`,
which is not part of the sources; the transport contract gives the two
directions `Input` and `Output`. -/
inductive PortType where
  | Input
  | Output
  deriving DecidableEq, Repr

/-- Modelled from the spec: `RTT::Corba::TaskState` is declared in
`ControlTaskC.h`, which is not part of the sources; the specification gives the
execution state as a fixed enumeration of seven values.  The constructors carry
the names under which `Init_rorocos_ext` reads them. -/
inductive TaskState where
  | PreOperational
  | FatalError
  | Stopped
  | Active
  | Running
  | RunTimeWarning
  | RunTimeError
  deriving DecidableEq, Repr

/-- An element of `AttributeInterface::PropertyNames`; the extension reads only
its `name` field. -/
structure Property where
  name : String
  deriving DecidableEq, Repr

/-- The remote operations used by the extension. -/
structure Transport where
  /-- The call `CorbaAccess::findByName(name)` -/
  findByName : String → Except CxxException ControlTask
  /-- The call `task->ports()` -/
  ports : ControlTask → Except CxxException DataFlowInterface
  /-- The call `task->attributes()` -/
  attributes : ControlTask → Except CxxException AttributeInterface
  /-- The call `task->methods()` -/
  methods : ControlTask → Except CxxException MethodInterface
  /-- The call `task->commands()` -/
  commands : ControlTask → Except CxxException CommandInterface
  /-- The call `task->_is_equivalent(other)` -/
  is_equivalent : ControlTask → ControlTask → Bool
  /-- The call `task->getTaskState()` -/
  getTaskState : ControlTask → Except CxxException TaskState
  /-- The call `ports->getPortType(name)` -/
  getPortType : DataFlowInterface → String → Except CxxException PortType
  /-- The call `ports->getDataType(name)` -/
  getDataType : DataFlowInterface → String → Except CxxException String
  /-- The call `ports->getPorts()` -/
  getPorts : DataFlowInterface → Except CxxException (List String)
  /-- The call `attributes->getProperty(name)`; `none` is a nil reference -/
  getProperty : AttributeInterface → String → Except CxxException (Option Expression)
  /-- The call `attributes->getAttribute(name)`; `none` is a nil reference -/
  getAttribute : AttributeInterface → String → Except CxxException (Option Expression)
  /-- The call `attributes->getAttributeList()` -/
  getAttributeList : AttributeInterface → Except CxxException (List String)
  /-- The call `attributes->getPropertyList()` -/
  getPropertyList : AttributeInterface → Except CxxException (List Property)
  /-- The call `expr->getTypeName()` -/
  getTypeName : Expression → Except CxxException String

/-! ## Ruby side -/

/-- Models `struct RTaskContext`. -/
structure RTaskContext where
  task : ControlTask
  ports : DataFlowInterface
  attributes : AttributeInterface
  methods : MethodInterface
  commands : CommandInterface
  deriving DecidableEq, Repr

/-- Models `struct RAttribute`. -/
structure RAttribute where
  expr : Expression
  deriving DecidableEq, Repr

/-- An instance of `Orocos::TaskContext`: the wrapped `RTaskContext` and `@name`. -/
structure TaskContextObj where
  wrapped : RTaskContext
  name : String
  deriving DecidableEq, Repr

/-- The two port classes instantiated by `task_context_port`. -/
inductive PortClass where
  | cInputPort
  | cOutputPort
  deriving DecidableEq, Repr

/-- Ruby values handled by the extension. -/
inductive Value where
  | Qnil
  | Qtrue
  | Qfalse
  /-- a Fixnum, `INT2FIX(i)` -/
  | fixnum (i : Int)
  /-- a Ruby string -/
  | str (s : String)
  /-- an `Orocos::TaskContext` -/
  | taskContext (obj : TaskContextObj)
  /-- an `Orocos::InputPort` or `Orocos::OutputPort` with `@name`, `@task`, `@typename` -/
  | port (klass : PortClass) (name : String) (task : TaskContextObj) (typename : String)
  /-- an `Orocos::Attribute` with its wrapped `RAttribute`, `@name`, `@typename` -/
  | attribute (wrapped : RAttribute) (name : String) (typename : String)
  deriving DecidableEq, Repr

/-- Exception classes passed to `rb_raise`. -/
inductive RubyError where
  | eNotFound
  deriving DecidableEq, Repr

/-- How a function of the extension ends when it does not return. -/
inductive Failure where
  /-- Models `rb_raise(klass, msg)` -/
  | raised (klass : RubyError) (msg : String)
  /-- a C++ exception that no handler of the function catches -/
  | thrown (e : CxxException)
  deriving DecidableEq, Repr

/-- The message `msg` contains the text `s`. -/
def Mentions (msg s : String) : Prop := s.data <:+: msg.data

instance (msg s : String) : Decidable (Mentions msg s) := by
  unfold Mentions
  infer_instance

/-- The C string read from `StringValuePtr(s)`: the characters of `s` before its
first NUL. -/
def cstr (s : String) : String :=
  String.mk (s.data.takeWhile (fun ch => ch != Char.ofNat 0))

/-- The string `s` contains no NUL character. -/
def NulFree (s : String) : Prop := Char.ofNat 0 ∉ s.data

instance (s : String) : Decidable (NulFree s) := by
  unfold NulFree
  infer_instance

/-- Format `"task context '%s' not found"` applied to `StringValuePtr(name)`. -/
def msg_task_not_found (name : String) : String :=
  "task context \x27" ++ cstr name ++ "\x27 not found"

/-- Format `"task %s does not have a '%s' port"` applied to
`StringValuePtr(task_name)` and `StringValuePtr(name)`. -/
def msg_no_port (task_name name : String) : String :=
  "task " ++ cstr task_name ++ " does not have a \x27" ++ cstr name ++ "\x27 port"

/-- Format `"no attribute or property named '%s'"` applied to
`StringValuePtr(name)`. -/
def msg_no_attribute (name : String) : String :=
  "no attribute or property named \x27" ++ cstr name ++ "\x27"

/-- The `try` block of `task_context_get`. -/
def task_context_get_try (T : Transport) (name : String) : Except CxxException Value := do
  let task ← T.findByName name
  let ports ← T.ports task
  let attributes ← T.attributes task
  let methods ← T.methods task
  let commands ← T.commands task
  pure (Value.taskContext
    { wrapped := { task := task, ports := ports, attributes := attributes,
                   methods := methods, commands := commands },
      name := name })

/-- Models `TaskContext.get(name)`: the `try` block, and `catch(...)` turning every
exception into `NotFound`. -/
def task_context_get (T : Transport) (name : String) : Except Failure Value :=
  match task_context_get_try T name with
  | .ok obj => .ok obj
  | .error _ => .error (.raised .eNotFound (msg_task_not_found name))

/-- Models `TaskContext#==`. -/
def task_context_equal_p (T : Transport) (self : TaskContextObj) (other : Value) : Value :=
  match other with
  | .taskContext other_ =>
    if T.is_equivalent self.wrapped.task other_.wrapped.task then .Qtrue else .Qfalse
  | _ => .Qfalse

/-- Models `TaskContext#port(name)`. -/
def task_context_port (T : Transport) (self : TaskContextObj) (name : String) :
    Except Failure Value :=
  match T.getPortType self.wrapped.ports name with
  | .error .NoSuchPortException =>
    .error (.raised .eNotFound (msg_no_port self.name name))
  | .error e => .error (.thrown e)
  | .ok port_type =>
    let klass : PortClass :=
      match port_type with
      | .Input => .cInputPort
      | .Output => .cOutputPort
    match T.getDataType self.wrapped.ports name with
    | .error e => .error (.thrown e)
    | .ok type_name => .ok (.port klass name self type_name)

/-- The loop `for (i = 0; i < names->length(); ++i) rb_yield(f(names[i]))`: the
values yielded so far, and whether the loop ran to its end. -/
def yield_each (f : String → Except Failure Value) :
    List String → List Value × Except Failure Unit
  | [] => ([], .ok ())
  | n :: rest =>
    match f n with
    | .error e => ([], .error e)
    | .ok v => (v :: (yield_each f rest).1, (yield_each f rest).2)

/-- Models `TaskContext#each_port`: the yielded values and the outcome (`self`). -/
def task_context_each_port (T : Transport) (self : TaskContextObj) :
    List Value × Except Failure Value :=
  match T.getPorts self.wrapped.ports with
  | .error e => ([], .error (.thrown e))
  | .ok ports =>
    match yield_each (task_context_port T self) ports with
    | (ys, .error e) => (ys, .error e)
    | (ys, .ok ()) => (ys, .ok (.taskContext self))

/-- Models `TaskContext#attribute(name)`. -/
def task_context_attribute (T : Transport) (self : TaskContextObj) (name : String) :
    Except Failure Value :=
  match T.getProperty self.wrapped.attributes name with
  | .error e => .error (.thrown e)
  | .ok prop =>
    let second : Except CxxException (Option Expression) :=
      match prop with
      | some e => .ok (some e)
      | none => T.getAttribute self.wrapped.attributes name
    match second with
    | .error e => .error (.thrown e)
    | .ok none => .error (.raised .eNotFound (msg_no_attribute name))
    | .ok (some expr) =>
      match T.getTypeName expr with
      | .error e => .error (.thrown e)
      | .ok type_name => .ok (.attribute { expr := expr } name type_name)

/-- How a call of `each_attribute` ends.  The C++ function is declared to return
a `VALUE` and its body has no `return` statement (the sibling `each_port` ends
with `return self`), so a call either is left by a raise or a C++ exception, or
control reaches the closing brace of the body, where C++ defines no behaviour. -/
inductive EachAttributeEnd where
  /-- a raise or an uncaught C++ exception leaves the function -/
  | failed (f : Failure)
  /-- control reaches the end of the body without `return`: undefined behaviour -/
  | no_return
  deriving DecidableEq, Repr

/-- Models `TaskContext#each_attribute`: the values yielded by the two loops as
written, and how the call ends.  When the end is `no_return` the C++ standard
guarantees nothing about the call, the yields included. -/
def task_context_each_attribute (T : Transport) (self : TaskContextObj) :
    List Value × EachAttributeEnd :=
  match T.getAttributeList self.wrapped.attributes with
  | .error e => ([], .failed (.thrown e))
  | .ok attributes =>
    match yield_each (task_context_attribute T self) attributes with
    | (ys, .error e) => (ys, .failed e)
    | (ys, .ok ()) =>
      match T.getPropertyList self.wrapped.attributes with
      | .error e => (ys, .failed (.thrown e))
      | .ok properties =>
        match yield_each (task_context_attribute T self) (properties.map Property.name) with
        | (zs, .error e) => (ys ++ zs, .failed e)
        | (zs, .ok ()) => (ys ++ zs, .no_return)

/-- A transport knowing the components `ctrl` and `nav`, each with the ports
`in1` (input, `double`) and `out1` (output, `int`), the property `gain`, the
attribute `offset`, and `mode` present both as a property and as an attribute.
It sees of each name the C string only. -/
def demoTransport : Transport where
  findByName := fun n =>
    if cstr n = "ctrl" then .ok ⟨1⟩ else if cstr n = "nav" then .ok ⟨2⟩
    else .error (.other "name not bound")
  ports := fun t => .ok ⟨t.ref⟩
  attributes := fun t => .ok ⟨t.ref⟩
  methods := fun t => .ok ⟨t.ref⟩
  commands := fun t => .ok ⟨t.ref⟩
  is_equivalent := fun a b => a.ref == b.ref
  getTaskState := fun _ => .ok .Stopped
  getPortType := fun _ n =>
    if cstr n = "in1" then .ok .Input else if cstr n = "out1" then .ok .Output
    else .error .NoSuchPortException
  getDataType := fun _ n => if cstr n = "in1" then .ok "double" else .ok "int"
  getPorts := fun _ => .ok ["in1", "out1"]
  getProperty := fun _ n =>
    if cstr n = "gain" then .ok (some ⟨10⟩) else if cstr n = "mode" then .ok (some ⟨11⟩)
    else .ok none
  getAttribute := fun _ n =>
    if cstr n = "offset" then .ok (some ⟨20⟩) else if cstr n = "mode" then .ok (some ⟨21⟩)
    else .ok none
  getAttributeList := fun _ => .ok ["offset", "mode"]
  getPropertyList := fun _ => .ok [⟨"gain"⟩, ⟨"mode"⟩]
  getTypeName := fun e =>
    if e.ref = 10 then .ok "double" else if e.ref = 11 then .ok "string"
    else if e.ref = 20 then .ok "int" else .ok "bool"

/-- The proxy `TaskContext.get("nav")` builds on `demoTransport`. -/
def demoNav : TaskContextObj :=
  { wrapped := { task := ⟨2⟩, ports := ⟨2⟩, attributes := ⟨2⟩, methods := ⟨2⟩, commands := ⟨2⟩ },
    name := "nav" }

/-- The transport `demoTransport`, except that every remote call on a resolved
handle fails with a CORBA communication failure. -/
def faultyTransport : Transport :=
  { demoTransport with
    ports := fun _ => .error (.other "CORBA::COMM_FAILURE")
    getPortType := fun _ _ => .error (.other "CORBA::COMM_FAILURE")
    getProperty := fun _ _ => .error (.other "CORBA::COMM_FAILURE") }

/-- The transport `demoTransport`, except that the calls made after the first
query of a lookup fail with a CORBA communication failure. -/
def lateFaultyTransport : Transport :=
  { demoTransport with
    commands := fun _ => .error (.other "CORBA::COMM_FAILURE")
    getDataType := fun _ _ => .error (.other "CORBA::COMM_FAILURE")
    getAttribute := fun _ _ => .error (.other "CORBA::COMM_FAILURE")
    getTypeName := fun _ => .error (.other "CORBA::COMM_FAILURE") }

/-- The components of `demoTransport` reached through fresh references: a name
resolves to the reference of `demoTransport` plus 100, and two references
denote the same remote object when they agree modulo 100. -/
def laterTransport : Transport :=
  { demoTransport with
    findByName := fun n =>
      if cstr n = "ctrl" then .ok ⟨101⟩ else if cstr n = "nav" then .ok ⟨102⟩
      else .error (.other "name not bound")
    is_equivalent := fun a b => a.ref % 100 == b.ref % 100 }

/-- The proxy `TaskContext.get("nav")` builds on `laterTransport`. -/
def laterNav : TaskContextObj :=
  { wrapped := { task := ⟨102⟩, ports := ⟨102⟩, attributes := ⟨102⟩, methods := ⟨102⟩,
                 commands := ⟨102⟩ },
    name := "nav" }

/-- A Ruby string with a NUL character in it. -/
def nulName : String := "zz\x00yy"

/-! ## Auxiliary lemmas -/

theorem mentions_mid (a s b : String) : Mentions (a ++ s ++ b) s := by
  unfold Mentions
  exact ⟨a.data, b.data, by simp⟩

/-- A string without NUL is its own C string. -/
theorem cstr_of_nulFree (s : String) (h : NulFree s) : cstr s = s := by
  unfold NulFree at h
  unfold cstr
  have : s.data.takeWhile (fun ch => ch != Char.ofNat 0) = s.data := by
    rw [List.takeWhile_eq_self_iff]
    intro ch hch
    have hne : ch ≠ Char.ofNat 0 := fun heq => h (heq ▸ hch)
    simpa using hne
  rw [this]

theorem mentions_task_not_found (n : String) : Mentions (msg_task_not_found n) (cstr n) :=
  mentions_mid _ (cstr n) _

theorem mentions_no_attribute (n : String) : Mentions (msg_no_attribute n) (cstr n) :=
  mentions_mid _ (cstr n) _

theorem mentions_no_port_port (cn p : String) : Mentions (msg_no_port cn p) (cstr p) :=
  mentions_mid _ (cstr p) _

theorem mentions_no_port_task (cn p : String) : Mentions (msg_no_port cn p) (cstr cn) := by
  unfold Mentions msg_no_port
  exact ⟨"task ".data, (" does not have a \x27" ++ cstr p ++ "\x27 port").data, by simp⟩

/-- Every way `task_context_get` fails is the same `NotFound`. -/
theorem get_error_eq (T : Transport) (n : String) (f : Failure)
    (h : task_context_get T n = .error f) :
    f = .raised .eNotFound (msg_task_not_found n) := by
  unfold task_context_get at h
  split at h
  · cases h
  · cases h; rfl

/-- A failing `try` block makes `task_context_get` raise `NotFound`. -/
theorem get_of_try_error (T : Transport) (n : String) (e : CxxException)
    (h : task_context_get_try T n = .error e) :
    task_context_get T n = .error (.raised .eNotFound (msg_task_not_found n)) := by
  unfold task_context_get
  rw [h]

/-- A proxy returned by `task_context_get` wraps the handle `findByName` gave
and carries the requested name. -/
theorem get_ok_inv (T : Transport) (n : String) (p : TaskContextObj)
    (h : task_context_get T n = .ok (.taskContext p)) :
    T.findByName n = .ok p.wrapped.task ∧ T.ports p.wrapped.task = .ok p.wrapped.ports ∧
    T.attributes p.wrapped.task = .ok p.wrapped.attributes ∧
    T.methods p.wrapped.task = .ok p.wrapped.methods ∧
    T.commands p.wrapped.task = .ok p.wrapped.commands ∧ p.name = n := by
  unfold task_context_get task_context_get_try at h
  cases h1 : T.findByName n with
  | error e => simp [h1, bind, Except.bind] at h
  | ok task =>
    cases h2 : T.ports task with
    | error e => simp [h1, h2, bind, Except.bind] at h
    | ok ports =>
      cases h3 : T.attributes task with
      | error e => simp [h1, h2, h3, bind, Except.bind] at h
      | ok attributes =>
        cases h4 : T.methods task with
        | error e => simp [h1, h2, h3, h4, bind, Except.bind] at h
        | ok methods =>
          cases h5 : T.commands task with
          | error e => simp [h1, h2, h3, h4, h5, bind, Except.bind] at h
          | ok commands =>
            simp [h1, h2, h3, h4, h5, bind, Except.bind, pure, Except.pure] at h
            subst h
            simp [h2, h3, h4, h5]

/-- When every name resolves, the loop yields one value per name, in order, and
runs to its end. -/
theorem yield_each_all_ok (f : String → Except Failure Value) (names : List String)
    (h : ∀ n ∈ names, ∃ v, f n = .ok v) :
    (yield_each f names).1.map Except.ok = names.map f ∧ (yield_each f names).2 = .ok () := by
  induction names with
  | nil => simp [yield_each]
  | cons n rest ih =>
    obtain ⟨v, hv⟩ := h n (List.mem_cons_self n rest)
    have ih2 := ih (fun m hm => h m (List.mem_cons_of_mem n hm))
    simp [yield_each, hv, ih2.1, ih2.2]

/-! ## Resolution by name -/

/-- C1 as stated fails: `demoTransport` cannot resolve the name `zz<NUL>yy`, and
`TaskContext.get` raises `NotFound` with the message `task context 'zz' not
found`, which does not contain the name. -/
theorem get_message_cut_at_nul :
    demoTransport.findByName nulName = .error (.other "name not bound") ∧
    task_context_get demoTransport nulName
      = .error (.raised .eNotFound "task context \x27zz\x27 not found") ∧
    ¬ Mentions "task context \x27zz\x27 not found" nulName := by
  refine ⟨by decide, by decide, by decide⟩

/-- C1 as amended: when the transport cannot resolve the name `n` (`findByName`
fails), `TaskContext.get(n)` returns no proxy and raises `NotFound` with a
message that contains `n` up to its first NUL, hence all of `n` when `n` has no
NUL. -/
theorem get_unresolved_not_found (T : Transport) (n : String) (e : CxxException)
    (h : T.findByName n = .error e) :
    task_context_get T n = .error (.raised .eNotFound (msg_task_not_found n)) ∧
    Mentions (msg_task_not_found n) (cstr n) ∧
    (NulFree n → Mentions (msg_task_not_found n) n) ∧
    (∀ v, task_context_get T n ≠ .ok v) := by
  have hg : task_context_get T n = .error (.raised .eNotFound (msg_task_not_found n)) := by
    apply get_of_try_error T n e
    simp [task_context_get_try, h, bind, Except.bind]
  refine ⟨hg, mentions_task_not_found n, ?_, ?_⟩
  · intro hn
    have := mentions_task_not_found n
    rwa [cstr_of_nulFree n hn] at this
  · intro v hv
    rw [hg] at hv
    cases hv

/-- Witness of the amended C1 on the scenario of the specification: `missing`
is not among the components `ctrl` and `nav`. -/
theorem get_unresolved_not_found_witness :
    demoTransport.findByName "missing" = .error (.other "name not bound") ∧
    task_context_get demoTransport "missing"
      = .error (.raised .eNotFound (msg_task_not_found "missing")) ∧
    Mentions (msg_task_not_found "missing") (cstr "missing") ∧
    Mentions (msg_task_not_found "missing") "missing" ∧
    (∀ v, task_context_get demoTransport "missing" ≠ .ok v) :=
  have w := get_unresolved_not_found demoTransport "missing" (.other "name not bound")
    (by decide)
  ⟨by decide, w.1, w.2.1, w.2.2.1 (by decide), w.2.2.2⟩

/-! ## Ports -/

/-- C2: when `getPortType(p)` answers `Input` (respectively `Output`) and
`getDataType(p)` answers `ty`, `c.port(p)` returns an `InputPort` (respectively
`OutputPort`) whose `@name` is `p`, whose `@task` is `c` and whose `@typename`
is `ty`. -/
theorem port_direction (T : Transport) (c : TaskContextObj) (p ty : String)
    (hty : T.getDataType c.wrapped.ports p = .ok ty) :
    (T.getPortType c.wrapped.ports p = .ok .Input →
      task_context_port T c p = .ok (.port .cInputPort p c ty)) ∧
    (T.getPortType c.wrapped.ports p = .ok .Output →
      task_context_port T c p = .ok (.port .cOutputPort p c ty)) := by
  constructor <;> intro hd <;> simp [task_context_port, hd, hty]

/-- Witness of C2: the input port `in1` and the output port `out1` of `nav`. -/
theorem port_direction_witness :
    task_context_port demoTransport demoNav "in1"
      = .ok (.port .cInputPort "in1" demoNav "double") ∧
    task_context_port demoTransport demoNav "out1"
      = .ok (.port .cOutputPort "out1" demoNav "int") :=
  ⟨(port_direction demoTransport demoNav "in1" "double" (by decide)).1 (by decide),
   (port_direction demoTransport demoNav "out1" "int" (by decide)).2 (by decide)⟩

/-- C3 as stated fails: `nav` has no port `sp<NUL>eed`, and `port` raises
`NotFound` with the message `task nav does not have a 'sp' port`, which does
not contain the port name. -/
theorem port_message_cut_at_nul :
    demoTransport.getPortType demoNav.wrapped.ports "sp\x00eed"
      = .error .NoSuchPortException ∧
    task_context_port demoTransport demoNav "sp\x00eed"
      = .error (.raised .eNotFound "task nav does not have a \x27sp\x27 port") ∧
    ¬ Mentions "task nav does not have a \x27sp\x27 port" "sp\x00eed" := by
  refine ⟨by decide, by decide, by decide⟩

/-- C3 as amended: when `getPortType(p)` throws `NoSuchPortException`,
`c.port(p)` returns no port and raises `NotFound` with a message containing
the name of `c` and `p`, each up to its first NUL, hence each whole name that
has no NUL; the outcome is the same whatever `getDataType` would answer. -/
theorem port_unknown_not_found (T : Transport) (c : TaskContextObj) (p : String)
    (h : T.getPortType c.wrapped.ports p = .error .NoSuchPortException) :
    task_context_port T c p = .error (.raised .eNotFound (msg_no_port c.name p)) ∧
    Mentions (msg_no_port c.name p) (cstr c.name) ∧
    Mentions (msg_no_port c.name p) (cstr p) ∧
    (NulFree c.name → Mentions (msg_no_port c.name p) c.name) ∧
    (NulFree p → Mentions (msg_no_port c.name p) p) ∧
    (∀ v, task_context_port T c p ≠ .ok v) ∧
    (∀ g, task_context_port { T with getDataType := g } c p = task_context_port T c p) := by
  have hp : task_context_port T c p = .error (.raised .eNotFound (msg_no_port c.name p)) := by
    simp [task_context_port, h]
  refine ⟨hp, mentions_no_port_task _ _, mentions_no_port_port _ _, ?_, ?_, ?_, ?_⟩
  · intro hn
    have := mentions_no_port_task c.name p
    rwa [cstr_of_nulFree c.name hn] at this
  · intro hn
    have := mentions_no_port_port c.name p
    rwa [cstr_of_nulFree p hn] at this
  · intro v hv
    rw [hp] at hv
    cases hv
  · intro g
    simp [task_context_port, h]

/-- Witness of the amended C3: `nav` has no port named `speed`. -/
theorem port_unknown_not_found_witness :
    task_context_port demoTransport demoNav "speed"
      = .error (.raised .eNotFound (msg_no_port "nav" "speed")) ∧
    Mentions (msg_no_port "nav" "speed") "nav" ∧
    Mentions (msg_no_port "nav" "speed") "speed" ∧
    (∀ v, task_context_port demoTransport demoNav "speed" ≠ .ok v) ∧
    (∀ g, task_context_port { demoTransport with getDataType := g } demoNav "speed"
      = task_context_port demoTransport demoNav "speed") :=
  have w := port_unknown_not_found demoTransport demoNav "speed" (by decide)
  ⟨w.1, w.2.2.2.1 (by decide), w.2.2.2.2.1 (by decide), w.2.2.2.2.2.1, w.2.2.2.2.2.2⟩

/-! ## Attributes and properties -/

/-- C4: when `n` names both a property `pe` and an attribute `ae`,
`attribute(n)` returns an `Attribute` wrapping `pe` with the type name of `pe`;
more generally, once `getProperty(n)` answers a property, the result does not
depend on what `getAttribute` answers. -/
theorem attribute_property_precedence (T : Transport) (c : TaskContextObj) (n : String)
    (pe : Expression) (hp : T.getProperty c.wrapped.attributes n = .ok (some pe)) :
    (∀ ae ty, T.getAttribute c.wrapped.attributes n = .ok (some ae) →
      T.getTypeName pe = .ok ty →
      task_context_attribute T c n = .ok (.attribute { expr := pe } n ty)) ∧
    (∀ g, task_context_attribute { T with getAttribute := g } c n
      = task_context_attribute T c n) := by
  constructor
  · intro ae ty _ hty
    simp [task_context_attribute, hp, hty]
  · intro g
    simp [task_context_attribute, hp]

/-- Witness of C4: `mode` is the property 11 of type `string` and the attribute
21 of type `bool`; the lookup returns the property. -/
theorem attribute_property_precedence_witness :
    demoTransport.getProperty demoNav.wrapped.attributes "mode" = .ok (some ⟨11⟩) ∧
    demoTransport.getAttribute demoNav.wrapped.attributes "mode" = .ok (some ⟨21⟩) ∧
    demoTransport.getTypeName ⟨21⟩ = .ok "bool" ∧
    task_context_attribute demoTransport demoNav "mode"
      = .ok (.attribute { expr := ⟨11⟩ } "mode" "string") :=
  ⟨by decide, by decide, by decide,
   (attribute_property_precedence demoTransport demoNav "mode" ⟨11⟩ (by decide)).1
     ⟨21⟩ "string" (by decide) (by decide)⟩

/-- C5 as stated fails: `nav` has neither a property nor an attribute
`zz<NUL>yy`, and `attribute` raises `NotFound` with the message `no attribute
or property named 'zz'`, which does not contain the name. -/
theorem attribute_message_cut_at_nul :
    demoTransport.getProperty demoNav.wrapped.attributes nulName = .ok none ∧
    demoTransport.getAttribute demoNav.wrapped.attributes nulName = .ok none ∧
    task_context_attribute demoTransport demoNav nulName
      = .error (.raised .eNotFound "no attribute or property named \x27zz\x27") ∧
    ¬ Mentions "no attribute or property named \x27zz\x27" nulName := by
  refine ⟨by decide, by decide, by decide, by decide⟩

/-- C5 as amended: `attribute(n)` raises `NotFound` exactly when both
`getProperty(n)` and `getAttribute(n)` answer nil, and the message then
contains `n` up to its first NUL, hence all of `n` when `n` has no NUL; when
the property, or failing it the attribute, is present with type name `ty`, the
call returns an `Attribute` named `n`. -/
theorem attribute_not_found_iff (T : Transport) (c : TaskContextObj) (n : String) :
    ((∃ msg, task_context_attribute T c n = .error (.raised .eNotFound msg)) ↔
      (T.getProperty c.wrapped.attributes n = .ok none ∧
       T.getAttribute c.wrapped.attributes n = .ok none)) ∧
    (T.getProperty c.wrapped.attributes n = .ok none →
      T.getAttribute c.wrapped.attributes n = .ok none →
      task_context_attribute T c n = .error (.raised .eNotFound (msg_no_attribute n)) ∧
      Mentions (msg_no_attribute n) (cstr n) ∧
      (NulFree n → Mentions (msg_no_attribute n) n)) ∧
    (∀ e ty, (T.getProperty c.wrapped.attributes n = .ok (some e) ∨
        (T.getProperty c.wrapped.attributes n = .ok none ∧
         T.getAttribute c.wrapped.attributes n = .ok (some e))) →
      T.getTypeName e = .ok ty →
      task_context_attribute T c n = .ok (.attribute { expr := e } n ty)) := by
  refine ⟨⟨?_, ?_⟩, ?_, ?_⟩
  · rintro ⟨msg, hmsg⟩
    unfold task_context_attribute at hmsg
    cases hp : T.getProperty c.wrapped.attributes n with
    | error e => simp [hp] at hmsg
    | ok prop =>
      cases prop with
      | some pe =>
        cases ht : T.getTypeName pe <;> simp [hp, ht] at hmsg
      | none =>
        cases ha : T.getAttribute c.wrapped.attributes n with
        | error e => simp [hp, ha] at hmsg
        | ok attr =>
          cases attr with
          | none => exact ⟨rfl, rfl⟩
          | some ae =>
            cases ht : T.getTypeName ae <;> simp [hp, ha, ht] at hmsg
  · rintro ⟨hp, ha⟩
    exact ⟨msg_no_attribute n, by simp [task_context_attribute, hp, ha]⟩
  · intro hp ha
    refine ⟨by simp [task_context_attribute, hp, ha], mentions_no_attribute n, ?_⟩
    intro hn
    have := mentions_no_attribute n
    rwa [cstr_of_nulFree n hn] at this
  · intro e ty hsel hty
    rcases hsel with hp | ⟨hp, ha⟩
    · simp [task_context_attribute, hp, hty]
    · simp [task_context_attribute, hp, ha, hty]

/-- Witness of the amended C5: `nav` has neither a property nor an attribute
`missing`, it has the property `gain` and the attribute `offset`. -/
theorem attribute_not_found_iff_witness :
    (task_context_attribute demoTransport demoNav "missing"
        = .error (.raised .eNotFound (msg_no_attribute "missing")) ∧
      Mentions (msg_no_attribute "missing") "missing") ∧
    task_context_attribute demoTransport demoNav "gain"
      = .ok (.attribute { expr := ⟨10⟩ } "gain" "double") ∧
    task_context_attribute demoTransport demoNav "offset"
      = .ok (.attribute { expr := ⟨20⟩ } "offset" "int") :=
  have w := (attribute_not_found_iff demoTransport demoNav "missing").2.1
    (by decide) (by decide)
  ⟨⟨w.1, w.2.2 (by decide)⟩,
   (attribute_not_found_iff demoTransport demoNav "gain").2.2 ⟨10⟩ "double"
     (Or.inl (by decide)) (by decide),
   (attribute_not_found_iff demoTransport demoNav "offset").2.2 ⟨20⟩ "int"
     (Or.inr ⟨by decide, by decide⟩) (by decide)⟩

/-! ## Enumerations -/

/-- C6: when `getPorts` answers `names` and every `port(n)` for `n` in `names`
resolves, `each_port` yields exactly `names.length` values, the value yielded
at each position is what `port` returns for the name at that position
(duplicates included), and the call returns `self`. -/
theorem each_port_faithful (T : Transport) (c : TaskContextObj) (names : List String)
    (hn : T.getPorts c.wrapped.ports = .ok names)
    (hres : ∀ n ∈ names, ∃ v, task_context_port T c n = .ok v) :
    (task_context_each_port T c).1.length = names.length ∧
    (task_context_each_port T c).1.map Except.ok = names.map (task_context_port T c) ∧
    (task_context_each_port T c).2 = .ok (.taskContext c) := by
  obtain ⟨h1, h2⟩ := yield_each_all_ok (task_context_port T c) names hres
  have hy : task_context_each_port T c
      = ((yield_each (task_context_port T c) names).1, .ok (.taskContext c)) := by
    have hr : yield_each (task_context_port T c) names
        = ((yield_each (task_context_port T c) names).1, .ok ()) := Prod.ext rfl h2
    unfold task_context_each_port
    simp only [hn]
    rw [hr]
  rw [hy]
  refine ⟨?_, h1, rfl⟩
  have := congrArg List.length h1
  simpa using this

/-- Witness of C6: the ports `in1`, `out1` of `nav` yield exactly two proxies,
named `in1` then `out1`. -/
theorem each_port_faithful_witness :
    ((task_context_each_port demoTransport demoNav).1.length = 2 ∧
      (task_context_each_port demoTransport demoNav).1.map Except.ok
        = ["in1", "out1"].map (task_context_port demoTransport demoNav) ∧
      (task_context_each_port demoTransport demoNav).2 = .ok (.taskContext demoNav)) ∧
    (task_context_each_port demoTransport demoNav).1
      = [.port .cInputPort "in1" demoNav "double", .port .cOutputPort "out1" demoNav "int"] :=
  ⟨each_port_faithful demoTransport demoNav ["in1", "out1"] (by decide)
    (by
      intro n hn
      simp only [List.mem_cons, List.mem_singleton, List.not_mem_nil, or_false] at hn
      rcases hn with rfl | rfl
      · exact ⟨.port .cInputPort "in1" demoNav "double", by decide⟩
      · exact ⟨.port .cOutputPort "out1" demoNav "int", by decide⟩),
   by decide⟩

/-- C7, the code at a failing input: on `nav`, whose attribute names are
`offset`, `mode` and whose property names are `gain`, `mode`, the two loops of
`each_attribute` yield the four proxies the claim describes, attributes first
and `mode` twice as the property 11, and then control reaches the end of the
function body, which has no `return`: the call has no defined behaviour. -/
theorem each_attribute_no_return :
    task_context_each_attribute demoTransport demoNav
      = ([.attribute { expr := ⟨20⟩ } "offset" "int",
          .attribute { expr := ⟨11⟩ } "mode" "string",
          .attribute { expr := ⟨10⟩ } "gain" "double",
          .attribute { expr := ⟨11⟩ } "mode" "string"],
         .no_return) := by
  decide

/-- Whenever both enumerations of `each_attribute` run to their end, the call
ends at the closing brace without `return`. -/
theorem each_attribute_completes_no_return (T : Transport) (c : TaskContextObj)
    (A : List String) (Ps : List Property)
    (hA : T.getAttributeList c.wrapped.attributes = .ok A)
    (hP : T.getPropertyList c.wrapped.attributes = .ok Ps)
    (hres : ∀ n ∈ A ++ Ps.map Property.name, ∃ v, task_context_attribute T c n = .ok v) :
    (task_context_each_attribute T c).2 = .no_return := by
  obtain ⟨_, a2⟩ := yield_each_all_ok (task_context_attribute T c) A
    (fun n hn => hres n (List.mem_append_left _ hn))
  obtain ⟨_, p2⟩ := yield_each_all_ok (task_context_attribute T c) (Ps.map Property.name)
    (fun n hn => hres n (List.mem_append_right _ hn))
  have hr : yield_each (task_context_attribute T c) A
      = ((yield_each (task_context_attribute T c) A).1, .ok ()) := Prod.ext rfl a2
  have hq : yield_each (task_context_attribute T c) (Ps.map Property.name)
      = ((yield_each (task_context_attribute T c) (Ps.map Property.name)).1, .ok ()) :=
    Prod.ext rfl p2
  unfold task_context_each_attribute
  simp only [hA]
  rw [hr]
  simp only [hP]
  rw [hq]

/-! ## Identity -/

/-- C8: `p == o` is `Qfalse` when `o` is not a `TaskContext`, and otherwise it is
the answer of `_is_equivalent` on the two wrapped remote handles.  Hence two
proxies obtained by resolving the same name twice compare equal as soon as the
transport holds the handles resolved for that name equivalent. -/
theorem equal_p_remote_identity (T : Transport) (p : TaskContextObj) :
    (∀ o, (∀ q, o ≠ .taskContext q) → task_context_equal_p T p o = .Qfalse) ∧
    (∀ q, task_context_equal_p T p (.taskContext q)
      = if T.is_equivalent p.wrapped.task q.wrapped.task then .Qtrue else .Qfalse) ∧
    (∀ (T1 T2 : Transport) (n : String) (p1 p2 : TaskContextObj),
      task_context_get T1 n = .ok (.taskContext p1) →
      task_context_get T2 n = .ok (.taskContext p2) →
      (∀ h1 h2, T1.findByName n = .ok h1 → T2.findByName n = .ok h2 →
        T.is_equivalent h1 h2 = true) →
      task_context_equal_p T p1 (.taskContext p2) = .Qtrue) := by
  refine ⟨?_, ?_, ?_⟩
  · intro o ho
    cases o with
    | taskContext q => exact absurd rfl (ho q)
    | _ => rfl
  · intro q
    rfl
  · intro T1 T2 n p1 p2 hg1 hg2 heq
    have e := heq _ _ (get_ok_inv T1 n p1 hg1).1 (get_ok_inv T2 n p2 hg2).1
    simp [task_context_equal_p, e]

/-- Witness of C8: `nav` resolved on `demoTransport` and again on
`laterTransport` gives two different proxies that compare equal; a string is
not equal to a proxy. -/
theorem equal_p_remote_identity_witness :
    task_context_equal_p laterTransport demoNav (.str "nav") = .Qfalse ∧
    demoNav ≠ laterNav ∧
    task_context_equal_p laterTransport demoNav (.taskContext laterNav) = .Qtrue :=
  ⟨(equal_p_remote_identity laterTransport demoNav).1 (.str "nav") (by intro q h; cases h),
   by decide,
   (equal_p_remote_identity laterTransport demoNav).2.2 demoTransport laterTransport "nav"
     demoNav laterNav (by decide) (by decide)
     (by
      intro h1 h2 e1 e2
      have a1 : h1 = ⟨2⟩ := by
        have : (Except.ok h1 : Except CxxException ControlTask) = .ok ⟨2⟩ := e1.symm.trans (by decide)
        cases this; rfl
      have a2 : h2 = ⟨102⟩ := by
        have : (Except.ok h2 : Except CxxException ControlTask) = .ok ⟨102⟩ := e2.symm.trans (by decide)
        cases this; rfl
      subst a1 a2
      decide)⟩

/-! ## Execution state -/

/-- C10 as stated fails for `get`: on `faultyTransport` the name `nav` resolves,
fetching the `ports` sub-interface fails with a communication failure, and
`TaskContext.get("nav")` raises `NotFound` instead of letting that failure
through. -/
theorem get_coerces_transport_failure :
    faultyTransport.findByName "nav" = .ok ⟨2⟩ ∧
    faultyTransport.ports ⟨2⟩ = .error (.other "CORBA::COMM_FAILURE") ∧
    task_context_get faultyTransport "nav"
      = .error (.raised .eNotFound (msg_task_not_found "nav")) ∧
    (∀ e, task_context_get faultyTransport "nav" ≠ .error (.thrown e)) := by
  refine ⟨by decide, by decide, by decide, ?_⟩
  intro e h
  have := get_error_eq faultyTransport "nav" _ h
  cases this

/-- C10 as amended.  In `port` and `attribute`, a C++ exception of a transport
call other than the `NoSuchPortException` of `getPortType` leaves the function
unchanged and is never `NotFound`.  In `get`, every failure is the `NotFound`
raised by the `catch(...)`, also when the name resolved and fetching one of the
four sub-interfaces failed. -/
theorem failure_kinds (T : Transport) (c : TaskContextObj) (n : String) (e : CxxException) :
    (T.getPortType c.wrapped.ports n = .error e → e ≠ .NoSuchPortException →
      task_context_port T c n = .error (.thrown e)) ∧
    (∀ d, T.getPortType c.wrapped.ports n = .ok d →
      T.getDataType c.wrapped.ports n = .error e →
      task_context_port T c n = .error (.thrown e)) ∧
    (T.getProperty c.wrapped.attributes n = .error e →
      task_context_attribute T c n = .error (.thrown e)) ∧
    (T.getProperty c.wrapped.attributes n = .ok none →
      T.getAttribute c.wrapped.attributes n = .error e →
      task_context_attribute T c n = .error (.thrown e)) ∧
    (∀ x, (T.getProperty c.wrapped.attributes n = .ok (some x) ∨
        (T.getProperty c.wrapped.attributes n = .ok none ∧
         T.getAttribute c.wrapped.attributes n = .ok (some x))) →
      T.getTypeName x = .error e →
      task_context_attribute T c n = .error (.thrown e)) ∧
    (∀ f, task_context_get T n = .error f →
      f = .raised .eNotFound (msg_task_not_found n)) ∧
    (∀ task, T.findByName n = .ok task →
      (T.ports task = .error e ∨ T.attributes task = .error e ∨
       T.methods task = .error e ∨ T.commands task = .error e) →
      task_context_get T n = .error (.raised .eNotFound (msg_task_not_found n))) := by
  refine ⟨?_, ?_, ?_, ?_, ?_, ?_, ?_⟩
  · intro h hne
    cases e with
    | NoSuchPortException => exact absurd rfl hne
    | other what => simp [task_context_port, h]
  · intro d hd hty
    simp [task_context_port, hd, hty]
  · intro h
    simp [task_context_attribute, h]
  · intro hp ha
    simp [task_context_attribute, hp, ha]
  · intro x hsel hty
    rcases hsel with hp | ⟨hp, ha⟩
    · simp [task_context_attribute, hp, hty]
    · simp [task_context_attribute, hp, ha, hty]
  · intro f hf
    exact get_error_eq T n f hf
  · intro task hfind hsub
    cases hg : task_context_get T n with
    | error f => rw [get_error_eq T n f hg]
    | ok v =>
      exfalso
      cases v with
      | taskContext p =>
        obtain ⟨i1, i2, i3, i4, i5, _⟩ := get_ok_inv T n p hg
        rw [hfind] at i1
        cases i1
        rcases hsub with h | h | h | h
        · rw [i2] at h; cases h
        · rw [i3] at h; cases h
        · rw [i4] at h; cases h
        · rw [i5] at h; cases h
      | _ =>
        unfold task_context_get task_context_get_try at hg
        cases h1 : T.findByName n with
        | error e1 => simp [h1, bind, Except.bind] at hg
        | ok t1 =>
          cases h2 : T.ports t1 with
          | error e2 => simp [h1, h2, bind, Except.bind] at hg
          | ok t2 =>
            cases h3 : T.attributes t1 with
            | error e3 => simp [h1, h2, h3, bind, Except.bind] at hg
            | ok t3 =>
              cases h4 : T.methods t1 with
              | error e4 => simp [h1, h2, h3, h4, bind, Except.bind] at hg
              | ok t4 =>
                cases h5 : T.commands t1 with
                | error e5 => simp [h1, h2, h3, h4, h5, bind, Except.bind] at hg
                | ok t5 => simp [h1, h2, h3, h4, h5, bind, Except.bind, pure, Except.pure] at hg

/-- Witness of the amended C10 on `faultyTransport` (first call of each lookup
fails) and `lateFaultyTransport` (later calls fail). -/
theorem failure_kinds_witness :
    task_context_port faultyTransport demoNav "in1"
      = .error (.thrown (.other "CORBA::COMM_FAILURE")) ∧
    task_context_port lateFaultyTransport demoNav "in1"
      = .error (.thrown (.other "CORBA::COMM_FAILURE")) ∧
    task_context_attribute faultyTransport demoNav "gain"
      = .error (.thrown (.other "CORBA::COMM_FAILURE")) ∧
    task_context_attribute lateFaultyTransport demoNav "offset"
      = .error (.thrown (.other "CORBA::COMM_FAILURE")) ∧
    task_context_attribute lateFaultyTransport demoNav "gain"
      = .error (.thrown (.other "CORBA::COMM_FAILURE")) ∧
    task_context_get faultyTransport "nav"
      = .error (.raised .eNotFound (msg_task_not_found "nav")) ∧
    task_context_get lateFaultyTransport "nav"
      = .error (.raised .eNotFound (msg_task_not_found "nav")) :=
  ⟨(failure_kinds faultyTransport demoNav "in1" (.other "CORBA::COMM_FAILURE")).1
      (by decide) (by decide),
   (failure_kinds lateFaultyTransport demoNav "in1" (.other "CORBA::COMM_FAILURE")).2.1
      .Input (by decide) (by decide),
   (failure_kinds faultyTransport demoNav "gain" (.other "CORBA::COMM_FAILURE")).2.2.1
      (by decide),
   (failure_kinds lateFaultyTransport demoNav "offset"
      (.other "CORBA::COMM_FAILURE")).2.2.2.1 (by decide) (by decide),
   (failure_kinds lateFaultyTransport demoNav "gain"
      (.other "CORBA::COMM_FAILURE")).2.2.2.2.1 ⟨10⟩ (Or.inl (by decide)) (by decide),
   (failure_kinds faultyTransport demoNav "nav"
      (.other "CORBA::COMM_FAILURE")).2.2.2.2.2.2 ⟨2⟩ (by decide) (Or.inl (by decide)),
   (failure_kinds lateFaultyTransport demoNav "nav"
      (.other "CORBA::COMM_FAILURE")).2.2.2.2.2.2 ⟨2⟩ (by decide)
      (Or.inr (Or.inr (Or.inr (by decide))))⟩

end Orocos
